import Mathlib

/-!
Verification development for the Open_Clanker gateway repository.

Shallow embedding of the Rust sources:
  crates/gateway/src/types.rs      (ConnectionState, WsClientMessage, WsServerMessage)
  crates/gateway/src/handlers.rs   (handle_websocket, handle_client_message, should_send_to_message)
  crates/gateway/src/processor.rs  (process_message, process_direct, process_with_orchestration)
  crates/agent/src/orchestrator.rs (parse_delegation, extract_json_array, delegate)
  crates/agent/src/openai.rs       (OpenAIAgent::chat response decoding)
  crates/agent/src/anthropic.rs    (AnthropicAgent::chat response decoding)
  crates/agent/src/factory.rs      (AgentFactory::create_from_config)

Rust strings are modelled as lists of Unicode scalar values (`Char`).  Where the
source indexes or slices by UTF-8 bytes, the byte structure is made explicit
(`utf8Len`, `takeBytes`), so that Rust slicing panics are representable: a
function that can panic returns `Option`, with `none` standing for the panic.
-/

namespace Clanker

/-- Rust `String` / `&str`, modelled as the list of its characters
(Unicode scalar values). -/
abbrev Str := List Char

/-- Number of bytes of the UTF-8 encoding of one character. -/
def utf8Len (c : Char) : Nat :=
  if c.toNat < 0x80 then 1
  else if c.toNat < 0x800 then 2
  else if c.toNat < 0x10000 then 3
  else 4

/-- Total UTF-8 byte length of a string. -/
def byteLen (s : Str) : Nat := (s.map utf8Len).sum

/-- Rust byte slicing `&s[..n]`.  Returns the characters occupying bytes
`[0, n)` when `n` is a character boundary of `s`; returns `none` (Rust panic:
"byte index is out of bounds" / "is not a char boundary") otherwise. -/
def takeBytes : Str → Nat → Option Str
  | _, 0 => some []
  | [], Nat.succ _ => none
  | c :: cs, Nat.succ n =>
      if utf8Len c ≤ n + 1 then
        (takeBytes cs (n + 1 - utf8Len c)).map (fun t => c :: t)
      else
        none

/-- Rust `char::is_whitespace`, restricted to the ASCII whitespace characters
that occur in this development (space, tab, line feed, carriage return). -/
def isRustWhitespace (c : Char) : Bool :=
  c = ' ' ∨ c = '\t' ∨ c = '\n' ∨ c = '\r'

/-- Rust `str::trim`: remove leading and trailing whitespace. -/
def rustTrim (s : Str) : Str :=
  ((s.dropWhile isRustWhitespace).reverse.dropWhile isRustWhitespace).reverse

/-- Rust `str::starts_with` on a string pattern. -/
def startsWith (pat s : Str) : Bool :=
  s.take pat.length = pat

/-- Rust `str::is_empty`. -/
def strIsEmpty (s : Str) : Bool := s.isEmpty

end Clanker

namespace Clanker

/-- crates/core/src/types.rs: `ChannelType`. -/
inductive ChannelType where
  | telegram
  | discord
  | slack
  | whatsApp
deriving DecidableEq

/-- crates/core/src/types.rs: `Message`.  `Uuid::new_v4` and `Utc::now` are
nondeterministic, so the generated id and timestamp enter the model as
arguments of `Message.new`; the unused `metadata` bag is not modelled. -/
structure Message where
  id : Str
  channel_type : ChannelType
  channel_id : Str
  sender : Str
  text : Str
  timestamp : Nat
deriving DecidableEq

/-- crates/core/src/types.rs: `Message::new`, with the fresh id and the clock
reading passed in explicitly. -/
def Message.new (freshId : Str) (now : Nat) (channel_type : ChannelType)
    (channel_id : Str) (sender : Str) (text : Str) : Message :=
  { id := freshId
    channel_type := channel_type
    channel_id := channel_id
    sender := sender
    text := text
    timestamp := now }

/-- crates/gateway/src/types.rs: `ConnectionState`.  The `HashMap<String,
ChannelType>` of subscriptions is modelled as an association list with
insert-replaces semantics; `addr` and `connected_at` are irrelevant to the
claims and kept as plain data. -/
structure ConnectionState where
  id : Nat
  subscriptions : List (Str × ChannelType)
deriving DecidableEq

/-- `HashMap::insert`: replace any existing binding of the key. -/
def mapInsert (k : Str) (v : ChannelType) (m : List (Str × ChannelType)) :
    List (Str × ChannelType) :=
  (k, v) :: m.filter (fun p => p.1 ≠ k)

/-- `HashMap::remove`. -/
def mapRemove (k : Str) (m : List (Str × ChannelType)) :
    List (Str × ChannelType) :=
  m.filter (fun p => p.1 ≠ k)

/-- `HashMap::contains_key`. -/
def mapContains (k : Str) (m : List (Str × ChannelType)) : Bool :=
  m.any (fun p => p.1 = k)

/-- crates/gateway/src/types.rs: `ConnectionState::new` (fresh uuid passed in;
subscriptions start empty). -/
def ConnectionState.new (freshId : Nat) : ConnectionState :=
  { id := freshId, subscriptions := [] }

/-- crates/gateway/src/types.rs: `ConnectionState::subscribe`. -/
def ConnectionState.subscribe (st : ConnectionState) (channel_id : Str)
    (channel_type : ChannelType) : ConnectionState :=
  { st with subscriptions := mapInsert channel_id channel_type st.subscriptions }

/-- crates/gateway/src/types.rs: `ConnectionState::unsubscribe`. -/
def ConnectionState.unsubscribe (st : ConnectionState) (channel_id : Str) :
    ConnectionState :=
  { st with subscriptions := mapRemove channel_id st.subscriptions }

/-- crates/gateway/src/types.rs: `ConnectionState::is_subscribed`. -/
def ConnectionState.is_subscribed (st : ConnectionState) (channel_id : Str) :
    Bool :=
  mapContains channel_id st.subscriptions

/-- crates/gateway/src/types.rs: `WsClientMessage`. -/
inductive WsClientMessage where
  | subscribe (channel_id : Str) (channel_type : ChannelType)
  | unsubscribe (channel_id : Str)
  | sendMessage (channel_id : Str) (channel_type : ChannelType) (message : Str)
  | ping (timestamp : Nat)
deriving DecidableEq

/-- crates/gateway/src/types.rs: `WsServerMessage` (variants used by the
session handler). -/
inductive WsServerMessage where
  | messageReceived (msg : Message)
  | subscribed (channel_id : Str) (connection_id : Nat)
  | unsubscribed (channel_id : Str)
  | sendResponse (success : Bool) (message_id : Option Str)
      (error : Option Str) (content : Option Str)
  | health (status : Str) (uptime_seconds : Nat)
  | pong (timestamp : Nat)
  | errorMsg (code : Str) (message : Str)
deriving DecidableEq

/-- crates/gateway/src/handlers.rs: `should_send_to_message` — the broadcast
filter: a `MessageReceived` event passes iff the connection is subscribed to
its channel id; every other variant passes. -/
def should_send_to_message (message : WsServerMessage)
    (conn_state : ConnectionState) : Bool :=
  match message with
  | WsServerMessage.messageReceived msg => conn_state.is_subscribed msg.channel_id
  | _ => true

end Clanker

namespace Clanker

/-- crates/gateway/src/state.rs: the connection table
`HashMap<ConnectionId, ConnectionState>` of `AppStateInner`, as an association
list with insert-replaces semantics. -/
abbrev ConnMap := List (Nat × ConnectionState)

/-- crates/gateway/src/state.rs: `AppState::add_connection`. -/
def add_connection (m : ConnMap) (id : Nat) (st : ConnectionState) : ConnMap :=
  (id, st) :: m.filter (fun p => p.1 ≠ id)

/-- crates/gateway/src/state.rs: `AppState::remove_connection`. -/
def remove_connection (m : ConnMap) (id : Nat) : ConnMap :=
  m.filter (fun p => p.1 ≠ id)

/-- Membership of a connection id in the connection table. -/
def connMapContains (m : ConnMap) (id : Nat) : Bool :=
  m.any (fun p => p.1 = id)

/-- crates/gateway/src/handlers.rs lines 70-150: the connection-table effect of
`handle_websocket`.  The handler inserts the fresh `ConnectionState`, sends the
welcome `health` frame, runs the select loop, and removes the connection after
the loop.  The loop body never modifies the connection table, so for the table
the only control-flow decision is whether the welcome send succeeded:
`welcomeSendOk = false` models the `Err` branch at line 93-96, which executes
`return;` before the loop — skipping the `remove_connection` cleanup at
line 148.  Every loop exit (receive error, broadcast-send failure, broadcast
lag, shutdown signal) falls through to that cleanup. -/
def handle_websocket (m : ConnMap) (connection_id : Nat)
    (welcomeSendOk : Bool) : ConnMap :=
  let conn_state := ConnectionState.new connection_id
  let m1 := add_connection m connection_id conn_state
  if welcomeSendOk = false then
    m1
  else
    remove_connection m1 connection_id

end Clanker

namespace Clanker

/-- crates/agent/src/types.rs: `WorkerTask`. -/
structure WorkerTask where
  identity : Str
  task : Str
deriving DecidableEq

/-- crates/agent/src/types.rs: `WorkerResult`. -/
structure WorkerResult where
  identity : Str
  task : Str
  content : Str
deriving DecidableEq

/-- crates/agent/src/orchestrator.rs line 13: `DELEGATE_PREFIX`. -/
def delegateMarker : Str := ("[DELEGATE]").toList

/-- crates/agent/src/orchestrator.rs lines 198-229: the scanning loop of
`extract_json_array`.  State: `i` is the `chars().enumerate()` index of the
current character, `depth` the bracket depth, `inStr`/`esc`/`q` the string
automaton state.  Returns the character index at which the depth-0 closing
bracket was found, or `none` when the loop runs off the end. -/
def scanCloseIdx : Str → Nat → Int → Bool → Bool → Char → Option Nat
  | [], _, _, _, _, _ => none
  | c :: cs, i, depth, inStr, esc, q =>
    if esc then
      scanCloseIdx cs (i + 1) depth inStr false q
    else if inStr then
      if c = '\\' then scanCloseIdx cs (i + 1) depth inStr true q
      else if c = q then scanCloseIdx cs (i + 1) depth false esc q
      else scanCloseIdx cs (i + 1) depth inStr esc q
    else if c = '"' ∨ c = '\'' then
      scanCloseIdx cs (i + 1) depth true esc c
    else if c = '[' then
      scanCloseIdx cs (i + 1) (depth + 1) inStr esc q
    else if c = ']' then
      if depth - 1 = 0 then some i
      else scanCloseIdx cs (i + 1) (depth - 1) inStr esc q
    else
      scanCloseIdx cs (i + 1) depth inStr esc q

/-- crates/agent/src/orchestrator.rs lines 193-231: `extract_json_array`.
The outer `Option` records panic: the source returns `Some(s[..=i])` where `i`
is a character index produced by `chars().enumerate()` but `s[..=i]` slices by
bytes, so on non-ASCII input the slice can cut a character (`takeBytes`
returns `none`, a Rust panic) or silently truncate the array text.  The inner
`Option` is the Rust `Option` return value. -/
def extract_json_array (s0 : Str) : Option (Option Str) :=
  let s := rustTrim s0
  if startsWith (("[").toList) s = false then some none
  else
    match scanCloseIdx s 0 0 false false '"' with
    | none => some none
    | some i =>
      match takeBytes s (i + 1) with
      | none => none
      | some t => some (some t)

end Clanker

namespace Clanker

/-- JSON value, the target of the `serde_json` decode model.  Numbers are kept
as their source lexeme: no claim inspects a numeric value that the delegation
decode accepts. -/
inductive Json where
  | null
  | jbool (b : Bool)
  | jnum (lexeme : Str)
  | jstr (s : Str)
  | jarr (xs : List Json)
  | jobj (fields : List (Str × Json))

/-- JSON insignificant whitespace. -/
def isJsonWs (c : Char) : Bool :=
  c = ' ' ∨ c = '\t' ∨ c = '\n' ∨ c = '\r'

/-- Skip JSON whitespace. -/
def skipWs (s : Str) : Str := s.dropWhile isJsonWs

/-- Value of one hexadecimal digit. -/
def hexDigit (c : Char) : Option Nat :=
  if '0' ≤ c ∧ c ≤ '9' then some (c.toNat - ('0').toNat)
  else if 'a' ≤ c ∧ c ≤ 'f' then some (c.toNat - ('a').toNat + 10)
  else if 'A' ≤ c ∧ c ≤ 'F' then some (c.toNat - ('A').toNat + 10)
  else none

/-- Body of a JSON string after the opening quote: returns the decoded
characters and the input after the closing quote.  Escapes follow RFC 8259
(`\uXXXX` limited to non-surrogate scalars); raw control characters are
rejected, as `serde_json` does. -/
def parseStringBody : Str → Option (Str × Str)
  | [] => none
  | c :: rest =>
    if c = '"' then some ([], rest)
    else if c = '\\' then
      match rest with
      | [] => none
      | e :: rest2 =>
        if e = '"' ∨ e = '\\' ∨ e = '/' then
          (parseStringBody rest2).map (fun p => (e :: p.1, p.2))
        else if e = 'b' then
          (parseStringBody rest2).map (fun p => (Char.ofNat 8 :: p.1, p.2))
        else if e = 'f' then
          (parseStringBody rest2).map (fun p => (Char.ofNat 12 :: p.1, p.2))
        else if e = 'n' then
          (parseStringBody rest2).map (fun p => ('\n' :: p.1, p.2))
        else if e = 'r' then
          (parseStringBody rest2).map (fun p => ('\r' :: p.1, p.2))
        else if e = 't' then
          (parseStringBody rest2).map (fun p => ('\t' :: p.1, p.2))
        else if e = 'u' then
          match rest2 with
          | h1 :: h2 :: h3 :: h4 :: rest3 =>
            match hexDigit h1, hexDigit h2, hexDigit h3, hexDigit h4 with
            | some d1, some d2, some d3, some d4 =>
              let code := ((d1 * 16 + d2) * 16 + d3) * 16 + d4
              if 0xD800 ≤ code ∧ code ≤ 0xDFFF then none
              else (parseStringBody rest3).map
                (fun p => (Char.ofNat code :: p.1, p.2))
            | _, _, _, _ => none
          | _ => none
        else none
    else if c.toNat < 0x20 then none
    else (parseStringBody rest).map (fun p => (c :: p.1, p.2))

/-- Fractional part of a JSON number (empty or `.` followed by digits). -/
def parseFracPart : Str → Option (Str × Str)
  | '.' :: r =>
      let d := r.takeWhile Char.isDigit
      if d.isEmpty then none else some ('.' :: d, r.dropWhile Char.isDigit)
  | s => some ([], s)

/-- Exponent part of a JSON number (empty or `e`/`E`, optional sign, digits). -/
def parseExpPart : Str → Option (Str × Str)
  | c :: r =>
      if c = 'e' ∨ c = 'E' then
        let (sgn, r1) := match r with
          | s :: r2 => if s = '+' ∨ s = '-' then ([s], r2) else (([] : Str), s :: r2)
          | [] => ([], [])
        let d := r1.takeWhile Char.isDigit
        if d.isEmpty then none
        else some (c :: (sgn ++ d), r1.dropWhile Char.isDigit)
      else some ([], c :: r)
  | [] => some ([], [])

/-- Lexeme of a JSON number, enforcing the no-leading-zero rule. -/
def parseNumberLexeme (s : Str) : Option (Str × Str) :=
  let (neg, s1) := match s with
    | '-' :: r => ((['-'] : Str), r)
    | _ => ([], s)
  let intPart := s1.takeWhile Char.isDigit
  let s2 := s1.dropWhile Char.isDigit
  if intPart.isEmpty then none
  else if intPart.headI = '0' ∧ intPart.length > 1 then none
  else
    match parseFracPart s2 with
    | none => none
    | some (frac, s3) =>
      match parseExpPart s3 with
      | none => none
      | some (ex, s4) => some (neg ++ intPart ++ frac ++ ex, s4)

mutual

/-- Recursive-descent JSON value parser (the `serde_json` grammar), with a
fuel argument for termination; callers pass fuel larger than the input
length, which always suffices since every recursive call consumes input. -/
def parseJsonValue : Nat → Str → Option (Json × Str)
  | 0, _ => none
  | Nat.succ fuel, s =>
    match skipWs s with
    | [] => none
    | c :: r =>
      if c = '"' then
        (parseStringBody r).map (fun p => (Json.jstr p.1, p.2))
      else if c = '[' then
        parseJsonArrayItems fuel (skipWs r) true
      else if c = Char.ofNat 123 then
        parseJsonObjMembers fuel (skipWs r) true
      else if c = 't' then
        match r with
        | 'r' :: 'u' :: 'e' :: r2 => some (Json.jbool true, r2)
        | _ => none
      else if c = 'f' then
        match r with
        | 'a' :: 'l' :: 's' :: 'e' :: r2 => some (Json.jbool false, r2)
        | _ => none
      else if c = 'n' then
        match r with
        | 'u' :: 'l' :: 'l' :: r2 => some (Json.null, r2)
        | _ => none
      else if c = '-' ∨ c.isDigit then
        (parseNumberLexeme (c :: r)).map (fun p => (Json.jnum p.1, p.2))
      else none

/-- Items of a JSON array after the opening bracket (whitespace already
skipped).  `first` is true before the first item, when `]` may close an
empty array and no comma is consumed. -/
def parseJsonArrayItems : Nat → Str → Bool → Option (Json × Str)
  | 0, _, _ => none
  | Nat.succ fuel, s, first =>
    match s with
    | ']' :: r => if first then some (Json.jarr [], r) else none
    | _ =>
      match parseJsonValue fuel s with
      | none => none
      | some (v, rest) =>
        match skipWs rest with
        | ']' :: r2 => some (Json.jarr [v], r2)
        | ',' :: r2 =>
          match parseJsonArrayItems fuel (skipWs r2) false with
          | some (Json.jarr vs, r3) => some (Json.jarr (v :: vs), r3)
          | _ => none
        | _ => none

/-- Members of a JSON object after the opening brace (whitespace already
skipped); same shape as `parseJsonArrayItems`. -/
def parseJsonObjMembers : Nat → Str → Bool → Option (Json × Str)
  | 0, _, _ => none
  | Nat.succ fuel, s, first =>
    match s with
    | c :: r =>
      if c = Char.ofNat 125 then
        if first then some (Json.jobj [], r) else none
      else if c = '"' then
        match parseStringBody r with
        | none => none
        | some (key, r1) =>
          match skipWs r1 with
          | ':' :: r2 =>
            match parseJsonValue fuel (skipWs r2) with
            | none => none
            | some (v, rest) =>
              match skipWs rest with
              | c2 :: r3 =>
                if c2 = Char.ofNat 125 then some (Json.jobj [(key, v)], r3)
                else if c2 = ',' then
                  match parseJsonObjMembers fuel (skipWs r3) false with
                  | some (Json.jobj fs, r4) => some (Json.jobj ((key, v) :: fs), r4)
                  | _ => none
                else none
              | [] => none
          | _ => none
      else none
    | [] => none

end

/-- Parse a complete JSON document: the whole input must be one value followed
only by whitespace, as `serde_json::from_str` requires. -/
def parseJsonDocument (s : Str) : Option Json :=
  match parseJsonValue (s.length + 1) s with
  | some (v, rest) => if (skipWs rest).isEmpty then some v else none
  | none => none

/-- The field access of serde's derived deserializer for `WorkerTask`: the
named field must occur exactly once (duplicates are a serde error) and hold a
string; unknown fields are ignored. -/
def getStrField (name : Str) (fields : List (Str × Json)) : Option Str :=
  match fields.filter (fun p => p.1 = name) with
  | [(_, Json.jstr v)] => some v
  | _ => none

/-- serde decode of one `{identity, task}` object. -/
def decodeWorkerTask (j : Json) : Option WorkerTask :=
  match j with
  | Json.jobj fields =>
    match getStrField (("identity").toList) fields,
          getStrField (("task").toList) fields with
    | some i, some t => some { identity := i, task := t }
    | _, _ => none
  | _ => none

/-- `serde_json::from_str::<Vec<WorkerTask>>`. -/
def serdeParseWorkerTasks (s : Str) : Option (List WorkerTask) :=
  match parseJsonDocument s with
  | some (Json.jarr xs) => xs.mapM decodeWorkerTask
  | _ => none

/-- crates/agent/src/orchestrator.rs lines 152-173:
`MasterClanker::parse_delegation`.  The outer `Option` is `none` exactly when
the call panics (inside `extract_json_array`); the inner `Option` is the Rust
return value. -/
def parse_delegation (response : Str) : Option (Option (List WorkerTask)) :=
  let trimmed := rustTrim response
  if startsWith delegateMarker trimmed = false then some none
  else
    let json_start := rustTrim (trimmed.drop delegateMarker.length)
    if json_start.isEmpty then some none
    else
      match extract_json_array json_start with
      | none => none
      | some none => some none
      | some (some json_str) =>
        match serdeParseWorkerTasks json_str with
        | none => some none
        | some tasks =>
          if tasks.isEmpty then some none else some (some tasks)

end Clanker

namespace Clanker

/-- crates/agent/src/types.rs: `AgentError`.  The rate-limit duration is kept
in seconds. -/
inductive AgentErrorM where
  | requestFailed (s : Str)
  | providerError (s : Str)
  | authenticationFailed
  | rateLimited (retryAfterSecs : Option Nat)
  | invalidResponse (s : Str)
  | serializationError (s : Str)
  | httpError (s : Str)
  | unknown (s : Str)
deriving DecidableEq

/-- Decimal digits of a natural number. -/
def natDigits (n : Nat) : Str := Nat.toDigits 10 n

/-- crates/agent/src/types.rs: the `thiserror` `Display` implementation of
`AgentError` (`e.to_string()`); the rate-limited arm prints the
`Option<Duration>` debug form. -/
def AgentErrorM.display : AgentErrorM → Str
  | AgentErrorM.requestFailed s => ("Request failed: ").toList ++ s
  | AgentErrorM.providerError s => ("Provider error: ").toList ++ s
  | AgentErrorM.authenticationFailed => ("Authentication failed").toList
  | AgentErrorM.rateLimited none => ("Rate limited: retry after None").toList
  | AgentErrorM.rateLimited (some n) =>
      ("Rate limited: retry after Some(").toList ++ natDigits n ++ ("s)").toList
  | AgentErrorM.invalidResponse s => ("Invalid response: ").toList ++ s
  | AgentErrorM.serializationError s => ("Serialization error: ").toList ++ s
  | AgentErrorM.httpError s => ("HTTP error: ").toList ++ s
  | AgentErrorM.unknown s => ("Unknown error: ").toList ++ s

/-- crates/agent/src/types.rs: `Usage` (u32 counters as naturals). -/
structure UsageM where
  prompt_tokens : Nat
  completion_tokens : Nat
  total_tokens : Nat
deriving DecidableEq

/-- crates/agent/src/types.rs: `AgentResponse`. -/
structure AgentResponseM where
  content : Str
  finish_reason : Str
  usage : UsageM
  model : Str
  provider : Str
deriving DecidableEq

/-- serde field access for a required field of a derived struct: present
exactly once (duplicate fields are a serde error; unknown fields elsewhere in
the object are ignored). -/
def getField (name : Str) (fields : List (Str × Json)) : Option Json :=
  match fields.filter (fun p => p.1 = name) with
  | [(_, v)] => some v
  | _ => none

/-- Nat value of a digit string. -/
def digitsToNat (s : Str) : Nat :=
  s.foldl (fun acc c => acc * 10 + (c.toNat - ('0').toNat)) 0

/-- serde decode of a `u32` field from a JSON number: a plain non-negative
integer lexeme within `u32` range. -/
def decodeU32 : Json → Option Nat
  | Json.jnum lx =>
      if lx ≠ [] ∧ lx.all Char.isDigit ∧ digitsToNat lx < 2 ^ 32 then
        some (digitsToNat lx)
      else none
  | _ => none

/-- serde decode of a `String` field. -/
def decodeString : Json → Option Str
  | Json.jstr s => some s
  | _ => none

/-- crates/agent/src/openai.rs lines 139-148: one element of `choices`
(`Choice { message: Message { content }, finish_reason }`), flattened. -/
structure ChoiceM where
  content : Str
  finish_reason : Str
deriving DecidableEq

/-- crates/agent/src/openai.rs lines 133-137 and 150-155: `OpenAIResponse`
with its mandatory `usage: OpenAIUsage` field.  None of the `OpenAIUsage`
fields carries a serde default. -/
structure OpenAIResponseM where
  choices : List ChoiceM
  usage : UsageM
deriving DecidableEq

/-- serde decode of `Message { content: String }`. -/
def decodeOpenAIInnerMessage (j : Json) : Option Str :=
  match j with
  | Json.jobj fields =>
      match getField (("content").toList) fields with
      | some v => decodeString v
      | none => none
  | _ => none

/-- serde decode of `Choice`. -/
def decodeChoice (j : Json) : Option ChoiceM :=
  match j with
  | Json.jobj fields =>
      match getField (("message").toList) fields,
            getField (("finish_reason").toList) fields with
      | some mv, some fv =>
          match decodeOpenAIInnerMessage mv, decodeString fv with
          | some c, some f => some { content := c, finish_reason := f }
          | _, _ => none
      | _, _ => none
  | _ => none

/-- serde decode of `OpenAIUsage { prompt_tokens, completion_tokens,
total_tokens }`: every field is required. -/
def decodeOpenAIUsage (j : Json) : Option UsageM :=
  match j with
  | Json.jobj fields =>
      match getField (("prompt_tokens").toList) fields,
            getField (("completion_tokens").toList) fields,
            getField (("total_tokens").toList) fields with
      | some pv, some cv, some tv =>
          match decodeU32 pv, decodeU32 cv, decodeU32 tv with
          | some p, some c, some t =>
              some { prompt_tokens := p, completion_tokens := c, total_tokens := t }
          | _, _, _ => none
      | _, _, _ => none
  | _ => none

/-- serde decode of `OpenAIResponse`: both `choices` and `usage` are required
fields; a body without a `usage` object fails to decode. -/
def decodeOpenAIResponse (j : Json) : Option OpenAIResponseM :=
  match j with
  | Json.jobj fields =>
      match getField (("choices").toList) fields,
            getField (("usage").toList) fields with
      | some cv, some uv =>
          match cv with
          | Json.jarr xs =>
              match xs.mapM decodeChoice, decodeOpenAIUsage uv with
              | some cs, some u => some { choices := cs, usage := u }
              | _, _ => none
          | _ => none
      | _, _ => none
  | _ => none

/-- crates/agent/src/openai.rs lines 67-94: what `OpenAIAgent::chat` does with
a 2xx response body once it is text: decode `OpenAIResponse` (failure is
`AgentError::InvalidResponse`), default the content to `""` and the finish
reason to `"stop"` when `choices` is empty, and copy the usage counters. -/
def openaiHandleBody (model : Str) (body : Json) :
    Except AgentErrorM AgentResponseM :=
  match decodeOpenAIResponse body with
  | none => Except.error (AgentErrorM.invalidResponse (("json decode error").toList))
  | some r =>
      Except.ok
        { content := ((r.choices.head?).map ChoiceM.content).getD []
          finish_reason :=
            ((r.choices.head?).map ChoiceM.finish_reason).getD (("stop").toList)
          usage := r.usage
          model := model
          provider := ("openai").toList }

/-- crates/agent/src/anthropic.rs lines 127-130: `ContentBlock`. -/
structure ContentBlockM where
  text : Str
deriving DecidableEq

/-- crates/agent/src/anthropic.rs lines 120-136: `AnthropicResponse` with the
two mandatory `usage` counters. -/
structure AnthropicResponseM where
  content : List ContentBlockM
  stop_reason : Option Str
  input_tokens : Nat
  output_tokens : Nat
deriving DecidableEq

/-- serde decode of `ContentBlock { text: String }`. -/
def decodeContentBlock (j : Json) : Option ContentBlockM :=
  match j with
  | Json.jobj fields =>
      match getField (("text").toList) fields with
      | some v => (decodeString v).map (fun s => { text := s })
      | none => none
  | _ => none

/-- serde decode of an `Option<String>` field: absent or `null` is `None`,
a string is `Some`, anything else is an error. -/
def decodeOptStrField (name : Str) (fields : List (Str × Json)) :
    Option (Option Str) :=
  match fields.filter (fun p => p.1 = name) with
  | [] => some none
  | [(_, Json.null)] => some none
  | [(_, Json.jstr s)] => some (some s)
  | _ => none

/-- serde decode of `AnthropicResponse`: `content` and `usage` (with
`input_tokens` and `output_tokens`) are required, `stop_reason` is optional. -/
def decodeAnthropicResponse (j : Json) : Option AnthropicResponseM :=
  match j with
  | Json.jobj fields =>
      match getField (("content").toList) fields,
            decodeOptStrField (("stop_reason").toList) fields,
            getField (("usage").toList) fields with
      | some cv, some sr, some (Json.jobj ufields) =>
          match cv with
          | Json.jarr xs =>
              match xs.mapM decodeContentBlock,
                    getField (("input_tokens").toList) ufields,
                    getField (("output_tokens").toList) ufields with
              | some blocks, some iv, some ov =>
                  match decodeU32 iv, decodeU32 ov with
                  | some i, some o =>
                      some { content := blocks, stop_reason := sr,
                             input_tokens := i, output_tokens := o }
                  | _, _ => none
              | _, _, _ => none
          | _ => none
      | _, _, _ => none
  | _ => none

/-- crates/agent/src/anthropic.rs lines 65-81: what `AnthropicAgent::chat`
does with a 2xx body: decode `AnthropicResponse` (failure is
`InvalidResponse`), then build the `AgentResponse` from `content[0].text`.
The `Ok none` value records the Rust panic: `content[0]` indexes the `Vec`
unconditionally, so an empty `content` array aborts instead of producing an
`AgentError`.  The `total_tokens` field is the `u32` sum
`input_tokens + output_tokens` of lines 76-77, which wraps modulo `2 ^ 32`
on overflow in release builds (a build with overflow checks panics there
instead). -/
def anthropicHandleBody (model : Str) (body : Json) :
    Except AgentErrorM (Option AgentResponseM) :=
  match decodeAnthropicResponse body with
  | none => Except.error (AgentErrorM.invalidResponse (("json decode error").toList))
  | some r =>
      match r.content with
      | [] => Except.ok none
      | b :: _ =>
          Except.ok (some
            { content := b.text
              finish_reason := r.stop_reason.getD (("stop").toList)
              usage :=
                { prompt_tokens := r.input_tokens
                  completion_tokens := r.output_tokens
                  total_tokens := (r.input_tokens + r.output_tokens) % 2 ^ 32 }
              model := model
              provider := ("anthropic").toList })

end Clanker

namespace Clanker

/-- The provider clients the agent crate defines.  `zai` is the `ZaiAgent` of
crates/agent/src/zai.rs; `placeholder` keeps the (original-case) provider tag
it was constructed with, as `PlaceholderAgent::new(config)` does. -/
inductive AgentImpl where
  | anthropic
  | openai
  | grok
  | groq
  | zai
  | placeholder (provider : Str)
deriving DecidableEq

/-- The HTTP client timeout each provider client installs on construction:
30 s for Anthropic/OpenAI/Grok/Groq, 60 s for Z.ai
(crates/agent/src/zai.rs line 25); the placeholder has no HTTP client. -/
def clientTimeoutSecs : AgentImpl → Option Nat
  | AgentImpl.anthropic => some 30
  | AgentImpl.openai => some 30
  | AgentImpl.grok => some 30
  | AgentImpl.groq => some 30
  | AgentImpl.zai => some 60
  | AgentImpl.placeholder _ => none

/-- Rust `str::to_lowercase`, restricted to ASCII case mapping. -/
def rustToLowercase (s : Str) : Str := s.map Char.toLower

/-- crates/agent/src/factory.rs lines 14-43:
`AgentFactory::create_from_config`, keyed on the lowercased provider tag.
The match has arms for anthropic, openai, grok and groq only; every other
tag — including `"zai"` — falls to the placeholder arm. -/
def create_from_config (provider : Str) : AgentImpl :=
  let p := rustToLowercase provider
  if p = ("anthropic").toList then AgentImpl.anthropic
  else if p = ("openai").toList then AgentImpl.openai
  else if p = ("grok").toList then AgentImpl.grok
  else if p = ("groq").toList then AgentImpl.groq
  else AgentImpl.placeholder provider

end Clanker

namespace Clanker

/-- crates/agent/src/types.rs: `MessageRole`. -/
inductive MessageRoleM where
  | user
  | assistant
  | system
deriving DecidableEq

/-- crates/agent/src/types.rs: `AgentMessage`. -/
structure AgentMessageM where
  role : MessageRoleM
  content : Str
deriving DecidableEq

/-- An agent's `chat` entry point, abstracted over the network: the response
to a message list, or the error the call produced. -/
abbrev ChatOracle := List AgentMessageM → Except AgentErrorM AgentResponseM

/-- crates/agent/src/orchestrator.rs lines 16-24: `MASTER_SYSTEM_PROMPT`. -/
def MASTER_SYSTEM_PROMPT : Str :=
  ("You are Master_Clanker, an orchestration agent that coordinates Worker_Clankers for complex tasks.\n\nWhen you need to delegate to workers, your response MUST start with [DELEGATE] followed by a JSON array of worker assignments. Each assignment has \"identity\" (e.g. \"Research Assistant\", \"Code Reviewer\") and \"task\" (the specific subtask). Example:\n\n[DELEGATE][\x7b\"identity\":\"Research Assistant\",\"task\":\"Find recent studies on topic X\"\x7d,\x7b\"identity\":\"Summarizer\",\"task\":\"Synthesize the findings\"\x7d]\n\nYou may spawn up to 5 workers. Each worker gets a distinct identity and a specific task.\n\nIf you can answer the user\x27s question directly without delegation, respond normally. Do NOT use [DELEGATE] for simple queries.").toList

/-- crates/gateway/src/processor.rs lines 95-104: the message list of the
first master call — `[system = MASTER_SYSTEM_PROMPT, user = <input>]`. -/
def masterMessages1 (user_content : Str) : List AgentMessageM :=
  [{ role := MessageRoleM.system, content := MASTER_SYSTEM_PROMPT },
   { role := MessageRoleM.user, content := user_content }]

/-- crates/gateway/src/processor.rs lines 52-55: the message list of the
direct flow — a single user message. -/
def directMessages (user_content : Str) : List AgentMessageM :=
  [{ role := MessageRoleM.user, content := user_content }]

/-- crates/agent/src/orchestrator.rs lines 88-131: the closure spawned for one
worker task.  When the Groq key is missing or empty it yields the inline
error result; otherwise it runs the worker's `chat` (the `workerChat` oracle)
and wraps an `Err` as the `[Worker error: …]` content. -/
def runWorkerTask (groqKeyPresent : Bool)
    (workerChat : WorkerTask → Except AgentErrorM Str) (wt : WorkerTask) :
    WorkerResult :=
  if groqKeyPresent = false then
    { identity := wt.identity
      task := wt.task
      content := ("[Error: Groq API key not configured for worker ").toList
        ++ wt.identity ++ ("]").toList }
  else
    match workerChat wt with
    | Except.ok c => { identity := wt.identity, task := wt.task, content := c }
    | Except.error e =>
        { identity := wt.identity
          task := wt.task
          content := ("[Worker error: ").toList ++ e.display ++ ("]").toList }

/-- crates/agent/src/orchestrator.rs lines 80-144: `MasterClanker::delegate`.
Truncates the task list to `max_workers`, spawns one worker per remaining
task, and collects one `WorkerResult` per spawned worker in order.  (Tokio
join errors, which the source logs and drops, have no counterpart in this
sequential model: every spawned worker yields its result.) -/
def delegate (max_workers : Nat) (groqKeyPresent : Bool)
    (workerChat : WorkerTask → Except AgentErrorM Str)
    (workers : List WorkerTask) : List WorkerResult :=
  (workers.take max_workers).map (runWorkerTask groqKeyPresent workerChat)

/-- The active-worker counter and the free permits of the worker semaphore.
Modelled from the spec: `AppState`'s `worker_semaphore` /
`increment_worker_count` / `decrement_worker_count` / `worker_count` methods
are called by crates/gateway/src/processor.rs but their definitions are not
among the provided sources; the spec describes a bounded counting semaphore of
`max_workers` permits plus an atomic gauge. -/
structure WorkerGauge where
  active : Nat
  available : Nat
deriving DecidableEq

/-- crates/gateway/src/processor.rs lines 128-150: the worker fan-out of
`process_with_orchestration`, with the semaphore and gauge modelled from the
spec.  `n = min(tasks, worker_max)` permits are acquired and the gauge is
incremented by `n`, `delegate` runs (truncating again to the orchestrator's
own `max_workers`, the same configured bound), then the gauge is decremented
and the permits released.  Returns the worker results, the gauge while the
workers run, and the gauge after completion. -/
def orchestrationFanout (worker_max : Nat) (g : WorkerGauge)
    (groqKeyPresent : Bool) (workerChat : WorkerTask → Except AgentErrorM Str)
    (worker_tasks : List WorkerTask) :
    List WorkerResult × WorkerGauge × WorkerGauge :=
  let n := min worker_tasks.length worker_max
  let gMid : WorkerGauge := { active := g.active + n, available := g.available - n }
  let results := delegate worker_max groqKeyPresent workerChat (worker_tasks.take n)
  let gEnd : WorkerGauge := { active := gMid.active - n, available := gMid.available + n }
  (results, gMid, gEnd)

/-- crates/gateway/src/processor.rs lines 153-157: the per-worker block of the
synthesis prompt: `[{identity}] Task: {task}\nResult: {content}`. -/
def fmtWorkerResult (r : WorkerResult) : Str :=
  ("[").toList ++ r.identity ++ ("] Task: ").toList ++ r.task
    ++ ("\nResult: ").toList ++ r.content

/-- Outcome of one processing flow.  `panicked` records an abort inside
`parse_delegation` (see `extract_json_array`). -/
inductive ProcOutcome where
  | ok (content : Str)
  | err (e : Str)
  | panicked
deriving DecidableEq

/-- Number of `chat` calls each flow made, per call site. -/
structure ProcessTrace where
  masterCalls : Nat
  directCalls : Nat
  fallbackMasterCalls : Nat
  fallbackSynthesisCalls : Nat
  fallbackDirectCalls : Nat
deriving DecidableEq

/-- The all-zero trace. -/
def ProcessTrace.zero : ProcessTrace :=
  { masterCalls := 0, directCalls := 0, fallbackMasterCalls := 0,
    fallbackSynthesisCalls := 0, fallbackDirectCalls := 0 }

/-- The outcome a flow adopts after consulting a fallback agent on a message
list: the fallback's content on success, its display string as the final
error on failure. -/
def fallbackOutcome (f : ChatOracle) (msgs : List AgentMessageM) : ProcOutcome :=
  match f msgs with
  | Except.ok r => ProcOutcome.ok r.content
  | Except.error e2 => ProcOutcome.err e2.display

/-- crates/gateway/src/processor.rs lines 47-82: `process_direct`.  One
primary `chat`; on failure, one fallback `chat` when a fallback agent is
configured; a failing fallback's display string is the final error. -/
def process_direct (agent : ChatOracle) (fallback : Option ChatOracle)
    (user_content : Str) : ProcOutcome × ProcessTrace :=
  let agent_messages := directMessages user_content
  match agent agent_messages with
  | Except.ok response =>
      (ProcOutcome.ok response.content,
       { ProcessTrace.zero with directCalls := 1 })
  | Except.error e =>
      match fallback with
      | some fb =>
          match fb agent_messages with
          | Except.ok response =>
              (ProcOutcome.ok response.content,
               { ProcessTrace.zero with directCalls := 1, fallbackDirectCalls := 1 })
          | Except.error e2 =>
              (ProcOutcome.err e2.display,
               { ProcessTrace.zero with directCalls := 1, fallbackDirectCalls := 1 })
      | none =>
          (ProcOutcome.err e.display,
           { ProcessTrace.zero with directCalls := 1 })

/-- crates/gateway/src/processor.rs lines 86-195:
`process_with_orchestration`.  First master call (fallback once on failure;
a successful fallback reply is returned directly, bypassing delegation);
delegation parse on the trimmed master reply; worker fan-out; synthesis call
(fallback once on failure).  The trace counts the master-agent calls and the
per-site fallback calls. -/
def process_with_orchestration (master : ChatOracle)
    (fallback : Option ChatOracle) (worker_max : Nat) (groqKeyPresent : Bool)
    (workerChat : WorkerTask → Except AgentErrorM Str)
    (user_content : Str) : ProcOutcome × ProcessTrace :=
  let messages1 := masterMessages1 user_content
  match master messages1 with
  | Except.error e =>
      (match fallback with
       | some fb =>
           match fb messages1 with
           | Except.ok r =>
               (ProcOutcome.ok r.content,
                { ProcessTrace.zero with masterCalls := 1, fallbackMasterCalls := 1 })
           | Except.error e2 =>
               (ProcOutcome.err e2.display,
                { ProcessTrace.zero with masterCalls := 1, fallbackMasterCalls := 1 })
       | none =>
           (ProcOutcome.err e.display,
            { ProcessTrace.zero with masterCalls := 1 }))
  | Except.ok response =>
      let master_response := rustTrim response.content
      match parse_delegation master_response with
      | none =>
          (ProcOutcome.panicked, { ProcessTrace.zero with masterCalls := 1 })
      | some none =>
          (ProcOutcome.ok master_response,
           { ProcessTrace.zero with masterCalls := 1 })
      | some (some worker_tasks) =>
          let n := min worker_tasks.length worker_max
          if n = 0 then
            (ProcOutcome.ok master_response,
             { ProcessTrace.zero with masterCalls := 1 })
          else
            let results :=
              delegate worker_max groqKeyPresent workerChat (worker_tasks.take n)
            let results_text :=
              List.intercalate (("\n\n").toList) (results.map fmtWorkerResult)
            let messages2 := messages1 ++
              [{ role := MessageRoleM.assistant, content := master_response },
               { role := MessageRoleM.user, content :=
                  ("Worker_Clanker results:\n\n").toList ++ results_text ++
                  ("\n\nSynthesize these results into a coherent response for the user.").toList }]
            match master messages2 with
            | Except.ok r2 =>
                (ProcOutcome.ok r2.content,
                 { ProcessTrace.zero with masterCalls := 2 })
            | Except.error e =>
                match fallback with
                | some fb =>
                    match fb messages2 with
                    | Except.ok r =>
                        (ProcOutcome.ok r.content,
                         { ProcessTrace.zero with
                            masterCalls := 2
                            fallbackSynthesisCalls := 1 })
                    | Except.error e2 =>
                        (ProcOutcome.err e2.display,
                         { ProcessTrace.zero with
                            masterCalls := 2
                            fallbackSynthesisCalls := 1 })
                | none =>
                    (ProcOutcome.err e.display,
                     { ProcessTrace.zero with masterCalls := 2 })

/-- Result of `process_message`: the reply `Message`, the error string, or a
panic bubbling up from the delegation parse. -/
inductive ProcessResult where
  | ok (reply : Message)
  | err (e : Str)
  | panicked
deriving DecidableEq

/-- crates/gateway/src/processor.rs lines 12-44: `process_message`.  Empty
text is rejected up front with the literal error before any agent is
consulted; otherwise the message routes to the orchestration flow (when
enabled and an orchestrator exists) or to the direct flow, and a successful
content becomes a fresh reply `Message` with sender `"assistant"` and the
incoming channel type and id. -/
def process_message (orchestration_enabled has_orchestrator : Bool)
    (master agent : ChatOracle) (fallback : Option ChatOracle)
    (worker_max : Nat) (groqKeyPresent : Bool)
    (workerChat : WorkerTask → Except AgentErrorM Str)
    (freshId : Str) (now : Nat) (incoming : Message) :
    ProcessResult × ProcessTrace :=
  let user_content := incoming.text
  if strIsEmpty user_content then
    (ProcessResult.err (("Message text cannot be empty").toList),
     ProcessTrace.zero)
  else
    let flow :=
      if orchestration_enabled ∧ has_orchestrator then
        process_with_orchestration master fallback worker_max groqKeyPresent
          workerChat user_content
      else
        process_direct agent fallback user_content
    match flow with
    | (ProcOutcome.ok content, tr) =>
        (ProcessResult.ok (Message.new freshId now incoming.channel_type
           incoming.channel_id (("assistant").toList) content), tr)
    | (ProcOutcome.err e, tr) => (ProcessResult.err e, tr)
    | (ProcOutcome.panicked, tr) => (ProcessResult.panicked, tr)

end Clanker

namespace Clanker

/-- crates/gateway/src/handlers.rs lines 159-227: the dispatch of
`handle_client_message` on a decoded `WsClientMessage` text frame.  It returns
the reply frames sent to the peer and the connection state after the dispatch,
or `none` when the dispatch aborts (a panic propagating out of
`processor::process_message`, the `process` oracle).  `freshId` and `now` feed
`Message::new` in the `SendMessage` arm (which also bumps the total-message
counter, not modelled here).  Mirroring the source, no arm touches the
subscription map: the `Subscribe` and `Unsubscribe` arms only log and send the
confirmation frame, so the connection state passes through unchanged. -/
def handle_client_message (process : Message → ProcessResult)
    (freshId : Str) (now : Nat) (req : WsClientMessage)
    (conn : ConnectionState) (connection_id : Nat) :
    Option (List WsServerMessage × ConnectionState) :=
  match req with
  | WsClientMessage.ping t => some ([WsServerMessage.pong t], conn)
  | WsClientMessage.subscribe channel_id _channel_type =>
      some ([WsServerMessage.subscribed channel_id connection_id], conn)
  | WsClientMessage.unsubscribe channel_id =>
      some ([WsServerMessage.unsubscribed channel_id], conn)
  | WsClientMessage.sendMessage channel_id channel_type message =>
      let incoming := Message.new freshId now channel_type channel_id
        (("user").toList) message
      match process incoming with
      | ProcessResult.ok response_msg =>
          some ([WsServerMessage.sendResponse true (some response_msg.id) none
              (some response_msg.text)], conn)
      | ProcessResult.err e =>
          some ([WsServerMessage.sendResponse false none (some e) none], conn)
      | ProcessResult.panicked => none

end Clanker

namespace Clanker

/-- C1: the claim fails on the code.  A `subscribe{channel_id="X"}` request on
a fresh connection — the last (and only) operation for `"X"` — is answered
with the `subscribed` confirmation, but the handler records nothing: the
connection state is returned unchanged and `"X"` is still not a member of the
subscription set, while `ConnectionState::subscribe` (the operation the spec
describes, defined in types.rs but never called by the handler) would have
recorded it. -/
theorem c1_subscribe_not_recorded :
    handle_client_message (fun _ => ProcessResult.err []) [] 0
        (WsClientMessage.subscribe (("X").toList) ChannelType.telegram)
        (ConnectionState.new 7) 7
      = some ([WsServerMessage.subscribed (("X").toList) 7], ConnectionState.new 7)
    ∧ (ConnectionState.new 7).is_subscribed (("X").toList) = false
    ∧ ((ConnectionState.new 7).subscribe (("X").toList)
        ChannelType.telegram).is_subscribed (("X").toList) = true := by
  refine ⟨rfl, rfl, rfl⟩

/-- C2: the claim fails on the code.  When the initial welcome frame cannot be
sent, `handle_websocket` returns early and the connection just added to the
Connection Manager is never removed; on every other exit path (the loop
breaks) the cleanup does run. -/
theorem c2_welcome_failure_leaks_connection :
    connMapContains (handle_websocket [] 42 false) 42 = true
    ∧ connMapContains (handle_websocket [] 42 true) 42 = false := by
  refine ⟨rfl, rfl⟩

/-- C3: the claim fails on the code.  `parse_delegation` is not total: on the
input `[DELEGATE][😀]` the scan of `extract_json_array` finds the closing
bracket at character index 2, but `s[..=2]` slices by bytes and byte 3 falls
inside the four-byte character U+1F600, so the slice panics — modelled as the
outer `none`. -/
theorem c3_parse_delegation_panics_on_multibyte :
    parse_delegation (("[DELEGATE][😀]").toList) = none := by decide

/-- C4: the claim fails on the code.  The input
`[DELEGATE][{"identity":"é","task":"T"}]` begins with the prefix followed by a
well-formed, non-empty JSON array of `{identity, task}` objects, yet
`parse_delegation` returns `None`: the two-byte `é` shifts the byte offsets,
`s[..=i]` cuts the matched array one byte before its closing bracket, and the
truncated text fails the serde decode.  On ASCII input the function behaves as
claimed: the spec's positive scenario (trailing text ignored) and all five
negative scenarios evaluate as stated. -/
theorem c4_nonascii_wellformed_array_rejected :
    parse_delegation
        (("[DELEGATE][\x7b\"identity\":\"é\",\"task\":\"T\"\x7d]").toList)
      = some none
    ∧ parse_delegation
        (("[DELEGATE][\x7b\"identity\":\"A\",\"task\":\"T1\"\x7d,\x7b\"identity\":\"B\",\"task\":\"T2\"\x7d] trailing").toList)
      = some (some [{ identity := ("A").toList, task := ("T1").toList },
                    { identity := ("B").toList, task := ("T2").toList }])
    ∧ parse_delegation (("").toList) = some none
    ∧ parse_delegation (("Hello").toList) = some none
    ∧ parse_delegation (("[DELEGATE]").toList) = some none
    ∧ parse_delegation (("[DELEGATE][]").toList) = some none
    ∧ parse_delegation (("[DELEGATE][bogus").toList) = some none := by
  refine ⟨by decide, by decide, by decide, by decide, by decide, by decide,
    by decide⟩

/-- C8, counterexample: a 2xx body whose JSON is `{"choices": []}` — no
`usage` object — does not decode with zero-defaulted usage: `OpenAIUsage`
carries no serde defaults and `usage` is a required field, so the decode fails
and `chat` returns `InvalidResponse` instead of a defaulted success. -/
theorem c8_missing_usage_fails_decode :
    decodeOpenAIResponse (Json.jobj [((("choices").toList), Json.jarr [])])
      = none
    ∧ openaiHandleBody (("gpt-4").toList)
        (Json.jobj [((("choices").toList), Json.jarr [])])
      = Except.error (AgentErrorM.invalidResponse (("json decode error").toList)) := by
  refine ⟨rfl, rfl⟩

/-- C9, counterexample: `AgentFactory::create_from_config` has no match arm
for `"zai"`, so the tag `"zai"` yields the placeholder client, not the
`ZaiAgent` (which does exist in zai.rs and installs a 60-second HTTP
timeout). -/
theorem c9_zai_tag_gets_placeholder :
    create_from_config (("zai").toList) = AgentImpl.placeholder (("zai").toList)
    ∧ AgentImpl.placeholder (("zai").toList) ≠ AgentImpl.zai
    ∧ clientTimeoutSecs AgentImpl.zai = some 60 := by
  refine ⟨by decide, by decide, rfl⟩

end Clanker

namespace Clanker

/-- C5: for any `worker_max = k` and any parsed task list, the fan-out spawns
exactly `min(n, k)` workers and collects one `WorkerResult` per spawned worker
(in order); while the workers run the active-worker gauge never exceeds `k`,
and after completion it returns to its pre-call value.  Hypotheses: the
semaphore invariant (outstanding permits equal the gauge, so free permits plus
gauge equal `k`) and that `acquire_many(n)` has been granted (`n` free
permits existed). -/
theorem c5_fanout_bounds (worker_max : Nat) (g : WorkerGauge) (key : Bool)
    (wchat : WorkerTask → Except AgentErrorM Str) (tasks : List WorkerTask)
    (hInv : g.active + g.available = worker_max)
    (hAcq : min tasks.length worker_max ≤ g.available) :
    (orchestrationFanout worker_max g key wchat tasks).1.length
        = min tasks.length worker_max
    ∧ (orchestrationFanout worker_max g key wchat tasks).1
        = (tasks.take (min tasks.length worker_max)).map
            (runWorkerTask key wchat)
    ∧ (orchestrationFanout worker_max g key wchat tasks).2.1.active ≤ worker_max
    ∧ (orchestrationFanout worker_max g key wchat tasks).2.2.active = g.active := by
  refine ⟨?_, ?_, ?_, ?_⟩
  · simp only [orchestrationFanout, delegate, List.length_map, List.length_take]
    omega
  · simp only [orchestrationFanout, delegate]
    rw [List.take_take, Nat.min_eq_right (Nat.min_le_right tasks.length worker_max)]
  · simp only [orchestrationFanout]
    omega
  · simp only [orchestrationFanout]
    omega

/-- C5 witness: `worker_max = 2`, an idle gauge, and a three-task directive —
exactly two workers spawn, the gauge peaks at 2 and returns to 0. -/
theorem c5_fanout_bounds_witness :
    ({ active := 0, available := 2 } : WorkerGauge).active
        + ({ active := 0, available := 2 } : WorkerGauge).available = 2
    ∧ ((orchestrationFanout 2 { active := 0, available := 2 } false
          (fun _ => Except.error AgentErrorM.authenticationFailed)
          [{ identity := ("A").toList, task := ("T1").toList },
           { identity := ("B").toList, task := ("T2").toList },
           { identity := ("C").toList, task := ("T3").toList }]).1.length = 2
        ∧ (orchestrationFanout 2 { active := 0, available := 2 } false
          (fun _ => Except.error AgentErrorM.authenticationFailed)
          [{ identity := ("A").toList, task := ("T1").toList },
           { identity := ("B").toList, task := ("T2").toList },
           { identity := ("C").toList, task := ("T3").toList }]).2.1.active ≤ 2
        ∧ (orchestrationFanout 2 { active := 0, available := 2 } false
          (fun _ => Except.error AgentErrorM.authenticationFailed)
          [{ identity := ("A").toList, task := ("T1").toList },
           { identity := ("B").toList, task := ("T2").toList },
           { identity := ("C").toList, task := ("T3").toList }]).2.2.active = 0) := by
  refine ⟨by decide, ?_⟩
  have h := c5_fanout_bounds 2 { active := 0, available := 2 } false
    (fun _ => Except.error AgentErrorM.authenticationFailed)
    [{ identity := ("A").toList, task := ("T1").toList },
     { identity := ("B").toList, task := ("T2").toList },
     { identity := ("C").toList, task := ("T3").toList }]
    (by decide) (by decide)
  exact ⟨h.1, h.2.2.1, h.2.2.2⟩

end Clanker

namespace Clanker

/-- C8, amended: when the body decodes successfully and the `choices` array is
empty, the content defaults to `""` and the finish reason to `"stop"` (the
usage counters are copied from the decoded `usage` object); but a body whose
JSON object has no `usage` field fails the decode — usage is a required field
with no zero-defaulting in the OpenAI client. -/
theorem c8_empty_choices_defaults (m : Str) (j : Json) (r : OpenAIResponseM)
    (fields : List (Str × Json))
    (hdec : decodeOpenAIResponse j = some r) (hch : r.choices = [])
    (hu : getField (("usage").toList) fields = none) :
    openaiHandleBody m j = Except.ok
      { content := []
        finish_reason := ("stop").toList
        usage := r.usage
        model := m
        provider := ("openai").toList }
    ∧ decodeOpenAIResponse (Json.jobj fields) = none := by
  constructor
  · simp [openaiHandleBody, hdec, hch]
  · rcases h : getField (("choices").toList) fields with _ | cv
    · simp only [decodeOpenAIResponse, h]
    · simp only [decodeOpenAIResponse, h, hu]

/-- C8 witness: a concrete body `{"choices": [], "usage": {...}}` decodes with
empty choices and defaults as amended, and the field list `[]` has no usage
field and fails to decode. -/
theorem c8_empty_choices_defaults_witness :
    decodeOpenAIResponse
        (Json.jobj [((("choices").toList), Json.jarr []),
          ((("usage").toList), Json.jobj
            [((("prompt_tokens").toList), Json.jnum (("3").toList)),
             ((("completion_tokens").toList), Json.jnum (("4").toList)),
             ((("total_tokens").toList), Json.jnum (("7").toList))])])
      = some { choices := [],
               usage := { prompt_tokens := 3, completion_tokens := 4,
                          total_tokens := 7 } }
    ∧ openaiHandleBody (("gpt-4").toList)
        (Json.jobj [((("choices").toList), Json.jarr []),
          ((("usage").toList), Json.jobj
            [((("prompt_tokens").toList), Json.jnum (("3").toList)),
             ((("completion_tokens").toList), Json.jnum (("4").toList)),
             ((("total_tokens").toList), Json.jnum (("7").toList))])])
      = Except.ok
          { content := []
            finish_reason := ("stop").toList
            usage := { prompt_tokens := 3, completion_tokens := 4,
                       total_tokens := 7 }
            model := ("gpt-4").toList
            provider := ("openai").toList }
    ∧ decodeOpenAIResponse (Json.jobj []) = none := by
  have h := c8_empty_choices_defaults (("gpt-4").toList)
    (Json.jobj [((("choices").toList), Json.jarr []),
      ((("usage").toList), Json.jobj
        [((("prompt_tokens").toList), Json.jnum (("3").toList)),
         ((("completion_tokens").toList), Json.jnum (("4").toList)),
         ((("total_tokens").toList), Json.jnum (("7").toList))])])
    { choices := [],
      usage := { prompt_tokens := 3, completion_tokens := 4, total_tokens := 7 } }
    [] rfl rfl rfl
  exact ⟨rfl, h.1, h.2⟩

/-- C9, amended: the tags anthropic, openai, grok and groq — compared
case-insensitively — map to their provider clients (each constructed with a
30-second HTTP timeout), and every other tag, `"zai"` included, maps to the
placeholder client. -/
theorem c9_factory_mapping (s : Str) :
    (rustToLowercase s = ("anthropic").toList →
      create_from_config s = AgentImpl.anthropic)
    ∧ (rustToLowercase s = ("openai").toList →
      create_from_config s = AgentImpl.openai)
    ∧ (rustToLowercase s = ("grok").toList →
      create_from_config s = AgentImpl.grok)
    ∧ (rustToLowercase s = ("groq").toList →
      create_from_config s = AgentImpl.groq)
    ∧ (rustToLowercase s ≠ ("anthropic").toList →
       rustToLowercase s ≠ ("openai").toList →
       rustToLowercase s ≠ ("grok").toList →
       rustToLowercase s ≠ ("groq").toList →
      create_from_config s = AgentImpl.placeholder s)
    ∧ clientTimeoutSecs AgentImpl.anthropic = some 30
    ∧ clientTimeoutSecs AgentImpl.openai = some 30
    ∧ clientTimeoutSecs AgentImpl.grok = some 30
    ∧ clientTimeoutSecs AgentImpl.groq = some 30 := by
  refine ⟨?_, ?_, ?_, ?_, ?_, rfl, rfl, rfl, rfl⟩
  · intro h; simp [create_from_config, h]
  · intro h; simp [create_from_config, h]
  · intro h; simp [create_from_config, h]
  · intro h; simp [create_from_config, h]
  · intro h1 h2 h3 h4
    simp only [create_from_config]
    rw [if_neg h1, if_neg h2, if_neg h3, if_neg h4]

/-- C9 witness: the mapping evaluated at the mixed-case tag `"Groq"` and at
the unmatched tag `"ZAI"`. -/
theorem c9_factory_mapping_witness :
    create_from_config (("Groq").toList) = AgentImpl.groq
    ∧ create_from_config (("ZAI").toList)
        = AgentImpl.placeholder (("ZAI").toList) := by
  refine ⟨(c9_factory_mapping (("Groq").toList)).2.2.2.1 (by decide),
    (c9_factory_mapping (("ZAI").toList)).2.2.2.2.1 (by decide) (by decide)
      (by decide) (by decide)⟩

/-- C10, counterexample: a decodable body with `input_tokens = 4294967295`
and `output_tokens = 1` is returned with `total_tokens = 0` — the `u32`
addition of anthropic.rs lines 76-77 wraps at `2 ^ 32` (a build with overflow
checks panics instead), so the program never returns the plain sum
`4294967296` the claim asserts at this body. -/
theorem c10_total_tokens_wraps :
    anthropicHandleBody (("claude").toList)
        (Json.jobj [((("content").toList),
            Json.jarr [Json.jobj [((("text").toList), Json.jstr (("hi").toList))]]),
          ((("usage").toList), Json.jobj
            [((("input_tokens").toList), Json.jnum (("4294967295").toList)),
             ((("output_tokens").toList), Json.jnum (("1").toList))])])
      = Except.ok (some
          { content := ("hi").toList
            finish_reason := ("stop").toList
            usage := { prompt_tokens := 4294967295, completion_tokens := 1,
                       total_tokens := 0 }
            model := ("claude").toList
            provider := ("anthropic").toList })
    ∧ (0 : Nat) ≠ 4294967295 + 1 := by
  refine ⟨rfl, by decide⟩

/-- C10, amended: the Anthropic decode is partial at the public interface.
Whenever the 2xx body decodes to an `AnthropicResponse` with an empty
`content` array, `chat` panics (`Ok none`: the unconditional `content[0]`
index) instead of returning an `AgentError`; whenever `content` is non-empty,
the response is built from `content[0].text` with
`total_tokens = (input_tokens + output_tokens) mod 2 ^ 32` — the `u32` sum,
which wraps on overflow in release builds (and panics under overflow
checks). -/
theorem c10_anthropic_content_indexing (m : Str) (j : Json)
    (r : AnthropicResponseM) (hdec : decodeAnthropicResponse j = some r) :
    (r.content = [] → anthropicHandleBody m j = Except.ok none)
    ∧ ∀ b bs, r.content = b :: bs →
        anthropicHandleBody m j = Except.ok (some
          { content := b.text
            finish_reason := r.stop_reason.getD (("stop").toList)
            usage := { prompt_tokens := r.input_tokens
                       completion_tokens := r.output_tokens
                       total_tokens := (r.input_tokens + r.output_tokens) % 2 ^ 32 }
            model := m
            provider := ("anthropic").toList }) := by
  constructor
  · intro h; simp [anthropicHandleBody, hdec, h]
  · intro b bs h; simp [anthropicHandleBody, hdec, h]

/-- C10 witness: a body with empty `content` panics; a body with one content
block yields its text and the summed token total. -/
theorem c10_anthropic_content_indexing_witness :
    anthropicHandleBody (("claude").toList)
        (Json.jobj [((("content").toList), Json.jarr []),
          ((("usage").toList), Json.jobj
            [((("input_tokens").toList), Json.jnum (("3").toList)),
             ((("output_tokens").toList), Json.jnum (("4").toList))])])
      = Except.ok none
    ∧ anthropicHandleBody (("claude").toList)
        (Json.jobj [((("content").toList),
            Json.jarr [Json.jobj [((("text").toList), Json.jstr (("hi").toList))]]),
          ((("usage").toList), Json.jobj
            [((("input_tokens").toList), Json.jnum (("3").toList)),
             ((("output_tokens").toList), Json.jnum (("4").toList))])])
      = Except.ok (some
          { content := ("hi").toList
            finish_reason := ("stop").toList
            usage := { prompt_tokens := 3, completion_tokens := 4,
                       total_tokens := 7 }
            model := ("claude").toList
            provider := ("anthropic").toList }) := by
  constructor
  · exact (c10_anthropic_content_indexing (("claude").toList)
      (Json.jobj [((("content").toList), Json.jarr []),
        ((("usage").toList), Json.jobj
          [((("input_tokens").toList), Json.jnum (("3").toList)),
           ((("output_tokens").toList), Json.jnum (("4").toList))])])
      { content := [], stop_reason := none, input_tokens := 3, output_tokens := 4 }
      rfl).1 rfl
  · exact (c10_anthropic_content_indexing (("claude").toList)
      (Json.jobj [((("content").toList),
          Json.jarr [Json.jobj [((("text").toList), Json.jstr (("hi").toList))]]),
        ((("usage").toList), Json.jobj
          [((("input_tokens").toList), Json.jnum (("3").toList)),
           ((("output_tokens").toList), Json.jnum (("4").toList))])])
      { content := [{ text := ("hi").toList }], stop_reason := none,
        input_tokens := 3, output_tokens := 4 }
      rfl).2 { text := ("hi").toList } [] rfl

end Clanker

namespace Clanker

/-- C7: a message with empty text is rejected by `process_message` with
exactly the error `"Message text cannot be empty"` and a zero call trace — no
agent is consulted — and the WebSocket `send_message` arm answers such a
request with `send_response{success: false, error: "Message text cannot be
empty"}`, for every routing configuration and every agent oracle. -/
theorem c7_empty_message_rejected (orchestration_enabled has_orchestrator : Bool)
    (master agent : ChatOracle) (fallback : Option ChatOracle)
    (worker_max : Nat) (groqKeyPresent : Bool)
    (workerChat : WorkerTask → Except AgentErrorM Str)
    (freshId : Str) (now : Nat) (mid : Str) (ct : ChannelType)
    (cid sender : Str) (ts : Nat)
    (hFreshId : Str) (hNow : Nat) (conn : ConnectionState) (connId : Nat) :
    process_message orchestration_enabled has_orchestrator master agent fallback
        worker_max groqKeyPresent workerChat freshId now
        { id := mid, channel_type := ct, channel_id := cid, sender := sender,
          text := [], timestamp := ts }
      = (ProcessResult.err (("Message text cannot be empty").toList),
         ProcessTrace.zero)
    ∧ handle_client_message
        (fun m => (process_message orchestration_enabled has_orchestrator master
            agent fallback worker_max groqKeyPresent workerChat freshId now m).1)
        hFreshId hNow (WsClientMessage.sendMessage cid ct []) conn connId
      = some ([WsServerMessage.sendResponse false none
          (some (("Message text cannot be empty").toList)) none], conn) := by
  constructor
  · simp [process_message, strIsEmpty]
  · simp [handle_client_message, process_message, Message.new, strIsEmpty]

end Clanker

namespace Clanker

/-- C6: per processed message, each of the three LLM call sites (first master
call, synthesis call, direct call) invokes the fallback agent at most once;
never when no fallback is configured; and when it is invoked, the primary call
at that site had failed and the result of the fallback — its content on
success, its error display on failure — is final, with no further retry. -/
theorem c6_fallback_single_shot (master agent : ChatOracle)
    (fallback : Option ChatOracle) (worker_max : Nat) (groqKeyPresent : Bool)
    (workerChat : WorkerTask → Except AgentErrorM Str) (u : Str) :
    (process_with_orchestration master fallback worker_max groqKeyPresent
        workerChat u).2.fallbackMasterCalls ≤ 1
    ∧ (process_with_orchestration master fallback worker_max groqKeyPresent
        workerChat u).2.fallbackSynthesisCalls ≤ 1
    ∧ (process_direct agent fallback u).2.fallbackDirectCalls ≤ 1
    ∧ (fallback = none →
        (process_with_orchestration master fallback worker_max groqKeyPresent
            workerChat u).2.fallbackMasterCalls = 0
        ∧ (process_with_orchestration master fallback worker_max groqKeyPresent
            workerChat u).2.fallbackSynthesisCalls = 0
        ∧ (process_direct agent fallback u).2.fallbackDirectCalls = 0)
    ∧ ((process_with_orchestration master fallback worker_max groqKeyPresent
          workerChat u).2.fallbackMasterCalls = 1 →
        ∃ e f, master (masterMessages1 u) = Except.error e ∧ fallback = some f ∧
          (process_with_orchestration master fallback worker_max groqKeyPresent
            workerChat u).1 = fallbackOutcome f (masterMessages1 u))
    ∧ ((process_with_orchestration master fallback worker_max groqKeyPresent
          workerChat u).2.fallbackSynthesisCalls = 1 →
        ∃ msgs e f, master msgs = Except.error e ∧ fallback = some f ∧
          (process_with_orchestration master fallback worker_max groqKeyPresent
            workerChat u).1 = fallbackOutcome f msgs)
    ∧ ((process_direct agent fallback u).2.fallbackDirectCalls = 1 →
        ∃ e f, agent (directMessages u) = Except.error e ∧ fallback = some f ∧
          (process_direct agent fallback u).1
            = fallbackOutcome f (directMessages u)) := by
  simp only [process_with_orchestration, process_direct]
  rcases hf : fallback with _ | f
  · rcases hm : master (masterMessages1 u) with e | r <;> try dsimp only
    · rcases ha : agent (directMessages u) with ea | ra <;> simp [ProcessTrace.zero]
    · rcases ha : agent (directMessages u) with ea | ra <;> (try dsimp only) <;>
        rcases hp : parse_delegation (rustTrim r.content) with _ | (_ | tasks) <;>
        dsimp only <;>
        try (simp [ProcessTrace.zero]; done)
      all_goals by_cases hn : min tasks.length worker_max = 0
      all_goals try (simp only [if_pos hn]; simp [ProcessTrace.zero]; done)
      all_goals simp only [if_neg hn]
      all_goals split <;> simp [ProcessTrace.zero]
  · rcases hm : master (masterMessages1 u) with e | r <;> try dsimp only
    · rcases hff1 : f (masterMessages1 u) with e1f | r1f <;>
      rcases hfd : f (directMessages u) with edf | rdf <;>
      rcases ha : agent (directMessages u) with ea | ra <;>
      dsimp only <;>
      refine ⟨?_, ?_, ?_, ?_, ?_, ?_, ?_⟩ <;>
      first
        | (simp [ProcessTrace.zero]; done)
        | exact fun _ => ⟨_, _, rfl, rfl, by simp only [fallbackOutcome, hff1, hfd]⟩
    · rcases hp : parse_delegation (rustTrim r.content) with _ | (_ | tasks) <;>
      rcases hfd : f (directMessages u) with edf | rdf <;>
      rcases ha : agent (directMessages u) with ea | ra <;>
      dsimp only <;>
      try (refine ⟨?_, ?_, ?_, ?_, ?_, ?_, ?_⟩ <;>
        first
          | (simp [ProcessTrace.zero]; done)
          | exact fun _ => ⟨_, _, rfl, rfl, by simp only [fallbackOutcome, hfd]⟩)
      all_goals by_cases hn : min tasks.length worker_max = 0
      all_goals try
        (simp only [if_pos hn]
         refine ⟨?_, ?_, ?_, ?_, ?_, ?_, ?_⟩ <;>
           first
             | (simp [ProcessTrace.zero]; done)
             | exact fun _ => ⟨_, _, rfl, rfl, by simp only [fallbackOutcome, hfd]⟩)
      all_goals simp only [if_neg hn]
      all_goals split <;> rename_i hm2
      all_goals try dsimp only
      all_goals try (split <;> rename_i hff2)
      all_goals refine ⟨?_, ?_, ?_, ?_, ?_, ?_, ?_⟩
      all_goals try (simp [ProcessTrace.zero]; done)
      all_goals try exact fun _ => ⟨_, _, rfl, rfl, by simp only [fallbackOutcome, hfd]⟩
      all_goals exact fun _ => ⟨_, _, _, hm2, rfl, by simp only [fallbackOutcome, hff2]⟩

end Clanker

namespace Clanker

/-- C6 witness: with a master oracle that always fails and a configured
fallback that also fails, the orchestration flow invokes the fallback exactly
once at the first-master-call site and adopts its result. -/
theorem c6_fallback_single_shot_witness :
    ∃ e f,
      (fun _ => Except.error AgentErrorM.authenticationFailed : ChatOracle)
          (masterMessages1 (("hi").toList)) = Except.error e
      ∧ (some (fun _ => Except.error (AgentErrorM.unknown (("boom").toList))
            : ChatOracle) : Option ChatOracle) = some f
      ∧ (process_with_orchestration
            (fun _ => Except.error AgentErrorM.authenticationFailed)
            (some (fun _ => Except.error (AgentErrorM.unknown (("boom").toList))))
            2 true (fun _ => Except.error AgentErrorM.authenticationFailed)
            (("hi").toList)).1
          = fallbackOutcome f (masterMessages1 (("hi").toList)) := by
  exact (c6_fallback_single_shot
    (fun _ => Except.error AgentErrorM.authenticationFailed)
    (fun _ => Except.error AgentErrorM.authenticationFailed)
    (some (fun _ => Except.error (AgentErrorM.unknown (("boom").toList))))
    2 true (fun _ => Except.error AgentErrorM.authenticationFailed)
    (("hi").toList)).2.2.2.2.1 (by decide)

end Clanker
